import Mathlib

/-!
# Verification of the Project Status Engine

Shallow embedding of `project_status_engine.py`: a RAG (red/amber/green)
project-health engine.  Python floats are modelled as exact rationals (ℚ)
and Python ints as ℤ; every threshold comparison in the source is an exact
comparison against a decimal literal, so the embedding is faithful on all
inputs the claims quantify over.  Python's `datetime` values are modelled
as integer timestamps measured in days, and `datetime.fromisoformat`
(standard library, external to this repository) is abstracted as a
`String → Option Int` parser passed explicitly; a `none` result models a
raised parse exception, threaded through `Except`.
-/

deriving instance DecidableEq for Except

namespace ProjectStatusEngine

/-- The `StatusColor` enumeration from the source (`green/amber/red/blue/grey`). -/
inductive StatusColor where
  | green
  | amber
  | red
  | blue
  | grey
deriving DecidableEq

/-- The `TrendDirection` enumeration from the source (up/down/flat arrows). -/
inductive TrendDirection where
  | up
  | down
  | flat
deriving DecidableEq

/-- The `HealthMetrics` dataclass: quantitative health metrics with the source's
default values. -/
structure HealthMetrics where
  spi : ℚ := 1
  cpi : ℚ := 1
  quality_score : ℚ := 1
  risk_score : ℚ := 0
  defect_count : ℤ := 0
  sev1_defects : ℤ := 0
  sev2_defects : ℤ := 0
  milestone_completion_rate : ℚ := 1
  scope_change_percentage : ℚ := 0
  resource_utilization : ℚ := 1
  stakeholder_satisfaction : ℚ := 1
deriving DecidableEq

/-- Embeds `RAGEvaluator.evaluate_schedule_health`: threshold ladder on `spi`
(the numeric cut-offs are `THRESHOLDS['schedule'][...]['spi_min']`). -/
def evaluate_schedule_health (metrics : HealthMetrics) : StatusColor :=
  if metrics.spi ≥ 0.98 then StatusColor.green
  else if metrics.spi ≥ 0.90 then StatusColor.amber
  else StatusColor.red

/-- Embeds `RAGEvaluator.evaluate_cost_health`: threshold ladder on `cpi`. -/
def evaluate_cost_health (metrics : HealthMetrics) : StatusColor :=
  if metrics.cpi ≥ 0.98 then StatusColor.green
  else if metrics.cpi ≥ 0.90 then StatusColor.amber
  else StatusColor.red

/-- Embeds `RAGEvaluator.evaluate_quality_health`: ladder on sev-1/sev-2 defect
counts (cut-offs from `THRESHOLDS['quality']`). -/
def evaluate_quality_health (metrics : HealthMetrics) : StatusColor :=
  if metrics.sev1_defects ≤ 0 ∧ metrics.sev2_defects ≤ 0 then StatusColor.green
  else if metrics.sev1_defects ≤ 0 ∧ metrics.sev2_defects ≤ 3 then StatusColor.amber
  else StatusColor.red

/-- Embeds `RAGEvaluator.evaluate_risk_health`: ladder on `risk_score`
(cut-offs from `THRESHOLDS['risk'][...]['risk_score_max']`). -/
def evaluate_risk_health (metrics : HealthMetrics) : StatusColor :=
  if metrics.risk_score ≤ 0.3 then StatusColor.green
  else if metrics.risk_score ≤ 0.6 then StatusColor.amber
  else StatusColor.red

/-- The source's `severity_map` dict, with Python's `.get(s, 0)` default for
colors outside the dict (blue/grey). -/
def severity_map : StatusColor → ℕ
  | StatusColor.green => 0
  | StatusColor.amber => 1
  | StatusColor.red => 2
  | _ => 0

/-- The source's `status_map` dict `{0: green, 1: amber, 2: red}`; it is only
ever indexed with the maximum of four severities, which lies in `{0, 1, 2}`. -/
def status_map (n : ℕ) : StatusColor :=
  if n = 0 then StatusColor.green
  else if n = 1 then StatusColor.amber
  else StatusColor.red

/-- Embeds `RAGEvaluator.calculate_overall_status`: worst-of aggregation over the four
dimension statuses plus a data-completeness confidence score. -/
def calculate_overall_status (metrics : HealthMetrics) : StatusColor × ℚ :=
  let schedule_status := evaluate_schedule_health metrics
  let cost_status := evaluate_cost_health metrics
  let quality_status := evaluate_quality_health metrics
  let risk_status := evaluate_risk_health metrics
  let severities : List ℕ :=
    [severity_map schedule_status, severity_map cost_status,
     severity_map quality_status, severity_map risk_status]
  let worst_severity := severities.foldl Nat.max 0
  let data_points : List Bool :=
    [decide (metrics.spi ≠ 1), decide (metrics.cpi ≠ 1),
     decide (metrics.quality_score ≠ 1), decide (metrics.risk_score ≠ 0),
     decide (metrics.milestone_completion_rate ≠ 1)]
  let confidence : ℚ := (data_points.count true : ℚ) / (data_points.length : ℚ)
  (status_map worst_severity, confidence)

/-- A highlight or lowlight record.  The source emits Python dicts with keys
`category`, `title`, `description`, `impact`, `metric` and (lowlights only)
`action_required`.  The `description` and `metric` entries are string
formattings of the very metric values tested by the rules; they carry no
information beyond the fields kept here, so the embedding keeps the
discriminating fields. -/
structure NoteRecord where
  category : String
  title : String
  impact : String
  action_required : Option String := none
deriving DecidableEq

/-- Embeds `HighlightDetector.detect_highlights`: sequential conditional appends, in
source order.  The `previous_metrics` and `project_data` parameters are
accepted and ignored, exactly as in the source. -/
def detect_highlights (current_metrics : HealthMetrics)
    (_previous_metrics : Option HealthMetrics) (_project_data : Unit) :
    List NoteRecord :=
  let highlights : List NoteRecord := []
  let highlights := if current_metrics.spi ≥ 1.05 then
    highlights ++ [{ category := "schedule",
                     title := "Schedule Performance Exceeds Target",
                     impact := "positive" }] else highlights
  let highlights := if current_metrics.cpi ≥ 1.05 then
    highlights ++ [{ category := "cost",
                     title := "Cost Performance Under Budget",
                     impact := "positive" }] else highlights
  let highlights := if current_metrics.sev1_defects = 0 ∧ current_metrics.sev2_defects = 0 then
    highlights ++ [{ category := "quality",
                     title := "Zero Critical Defects",
                     impact := "positive" }] else highlights
  let highlights := if current_metrics.milestone_completion_rate > 0.95 then
    highlights ++ [{ category := "delivery",
                     title := "Strong Milestone Achievement",
                     impact := "positive" }] else highlights
  highlights

/-- Embeds `HighlightDetector.detect_lowlights`: sequential conditional appends, in
source order; every appended record carries an `action_required` string. -/
def detect_lowlights (current_metrics : HealthMetrics)
    (_previous_metrics : Option HealthMetrics) (_project_data : Unit) :
    List NoteRecord :=
  let lowlights : List NoteRecord := []
  let lowlights := if current_metrics.spi ≤ 0.95 then
    lowlights ++ [{ category := "schedule",
                    title := "Schedule Slippage Detected",
                    impact := "negative",
                    action_required := some "Schedule recovery plan needed" }] else lowlights
  let lowlights := if current_metrics.cpi ≤ 0.95 then
    lowlights ++ [{ category := "cost",
                    title := "Cost Overrun Risk",
                    impact := "negative",
                    action_required := some "Cost mitigation strategy required" }] else lowlights
  let lowlights := if current_metrics.sev1_defects ≥ 1 then
    lowlights ++ [{ category := "quality",
                    title := "Critical Defects Present",
                    impact := "negative",
                    action_required := some "Immediate defect resolution required" }] else lowlights
  let lowlights := if current_metrics.risk_score > 0.6 then
    lowlights ++ [{ category := "risk",
                    title := "High Risk Exposure",
                    impact := "negative",
                    action_required := some "Risk mitigation plan needed" }] else lowlights
  lowlights

/-- One historical record: a Python dict with optional keys `date`, `spi`,
`cpi`, `issues`, `completion` (absent key = `none`). -/
structure HistRecord where
  date : Option String := none
  spi : Option ℚ := none
  cpi : Option ℚ := none
  issues : Option ℤ := none
  completion : Option ℚ := none
deriving DecidableEq

/-- Aggregated per-window metrics, the dict built by `_aggregate_metrics`. -/
structure AggMetrics where
  avg_spi : ℚ
  avg_cpi : ℚ
  total_issues : ℤ
  completion_rate : ℚ
deriving DecidableEq

/-- One window of the comparison payload: its absolute date range (the source
stores ISO strings of the two endpoints; the embedding stores the timestamps
themselves, key `end` is spelled `stop`) and its aggregates. -/
structure PeriodReport where
  start : ℤ
  stop : ℤ
  metrics : AggMetrics
deriving DecidableEq

/-- The three per-dimension trends of the comparison payload. -/
structure Trends where
  schedule : TrendDirection
  cost : TrendDirection
  quality : TrendDirection
deriving DecidableEq

/-- The full payload returned by `calculate_7day_comparison`. -/
structure Comparison where
  current_period : PeriodReport
  previous_period : PeriodReport
  trends : Trends
deriving DecidableEq

/-- Embeds `ProjectComparator._filter_period_data`: keeps the records whose parsed
date lies in `[start, stop]` (inclusive on both ends); a record without a
`date` key is skipped; a record whose date string fails to parse raises,
modelled as `Except.error ()` (the partial result is discarded, as a Python
exception discards the local list). -/
def filter_period_data (parse : String → Option ℤ) (data : List HistRecord)
    (start stop : ℤ) : Except Unit (List HistRecord) :=
  match data with
  | [] => Except.ok []
  | item :: rest =>
    match item.date with
    | none => filter_period_data parse rest start stop
    | some s =>
      match parse s with
      | none => Except.error ()
      | some item_date =>
        if start ≤ item_date ∧ item_date ≤ stop then
          (filter_period_data parse rest start stop).map (fun l => item :: l)
        else
          filter_period_data parse rest start stop

/-- Embeds `ProjectComparator._aggregate_metrics`: averages of `spi`, `cpi` and
`completion` (with the source's per-record defaults 1.0, 1.0, 0) and the sum
of `issues`; an empty window yields the neutral defaults. -/
def aggregate_metrics (period_data : List HistRecord) : AggMetrics :=
  if period_data = [] then
    { avg_spi := 1.0, avg_cpi := 1.0, total_issues := 0, completion_rate := 0.0 }
  else
    { avg_spi := ((period_data.map (fun d => d.spi.getD 1.0)).sum) / (period_data.length : ℚ),
      avg_cpi := ((period_data.map (fun d => d.cpi.getD 1.0)).sum) / (period_data.length : ℚ),
      total_issues := (period_data.map (fun d => d.issues.getD 0)).sum,
      completion_rate := ((period_data.map (fun d => d.completion.getD 0)).sum) / (period_data.length : ℚ) }

/-- Embeds `ProjectComparator._calculate_trends`: ±2 % bands on the spi/cpi averages
and an inverse ±10 % band on total issues. -/
def calculate_trends (recent previous : List HistRecord) : Trends :=
  let recent_metrics := aggregate_metrics recent
  let previous_metrics := aggregate_metrics previous
  { schedule :=
      if recent_metrics.avg_spi > previous_metrics.avg_spi * 1.02 then TrendDirection.up
      else if recent_metrics.avg_spi < previous_metrics.avg_spi * 0.98 then TrendDirection.down
      else TrendDirection.flat,
    cost :=
      if recent_metrics.avg_cpi > previous_metrics.avg_cpi * 1.02 then TrendDirection.up
      else if recent_metrics.avg_cpi < previous_metrics.avg_cpi * 0.98 then TrendDirection.down
      else TrendDirection.flat,
    quality :=
      if (recent_metrics.total_issues : ℚ) < (previous_metrics.total_issues : ℚ) * 0.9 then TrendDirection.up
      else if (recent_metrics.total_issues : ℚ) > (previous_metrics.total_issues : ℚ) * 1.1 then TrendDirection.down
      else TrendDirection.flat }

/-- Embeds `ProjectComparator.calculate_7day_comparison`: recent window
`[now − 7d, now]`, previous window `[now − 14d, now − 7d]`, aggregates and
trends from the two filtered record lists.  `now` stands for
`datetime.now()` and `current_data` is accepted and never read, as in the
source; a parse failure in either filter pass propagates. -/
def calculate_7day_comparison (parse : String → Option ℤ) (now : ℤ)
    (_current_data : Unit) (historical_data : List HistRecord) :
    Except Unit Comparison :=
  let seven_days_ago := now - 7
  let fourteen_days_ago := now - 14
  match filter_period_data parse historical_data seven_days_ago now with
  | Except.error e => Except.error e
  | Except.ok recent_period =>
    match filter_period_data parse historical_data fourteen_days_ago seven_days_ago with
    | Except.error e => Except.error e
    | Except.ok previous_period =>
      Except.ok
        { current_period :=
            { start := seven_days_ago, stop := now,
              metrics := aggregate_metrics recent_period },
          previous_period :=
            { start := fourteen_days_ago, stop := seven_days_ago,
              metrics := aggregate_metrics previous_period },
          trends := calculate_trends recent_period previous_period }

/-- A milestone entry of the raw project data (`m.get('status')`). -/
structure Milestone where
  status : Option String := none
deriving DecidableEq

/-- A risk entry of the raw project data (`r.get('severity')`). -/
structure RiskEntry where
  severity : Option String := none
deriving DecidableEq

/-- A KPI entry of the raw project data (`k.get('metric')`, `k.get('value')`). -/
structure KPI where
  metric : Option String := none
  value : Option ℤ := none
deriving DecidableEq

/-- The raw project-data mapping with the keys the engine reads. -/
structure ProjectData where
  id : Option String := none
  name : Option String := none
  milestones : List Milestone := []
  risks : List RiskEntry := []
  kpis : List KPI := []
deriving DecidableEq

/-- Python's `needle in hay` substring test. -/
def contains_substring (hay needle : String) : Bool :=
  1 < (hay.splitOn needle).length

/-- Embeds `ProjectStatusEngine._extract_metrics`: derives a `HealthMetrics`
snapshot from the raw project data, following the source line by line. -/
def extract_metrics (project_data : ProjectData) : HealthMetrics :=
  let milestones := project_data.milestones
  let completed := milestones.countP (fun m => decide (m.status = some "completed"))
  let total : ℕ := if milestones = [] then 1 else milestones.length
  let milestone_rate : ℚ := if 0 < total then (completed : ℚ) / (total : ℚ) else 0
  let risks := project_data.risks
  let high_risks := risks.countP (fun r => decide (r.severity = some "high"))
  let risk_score : ℚ := min ((high_risks : ℚ) * 0.3) 1.0
  let kpis := project_data.kpis
  let issues_kpi := kpis.find? (fun k =>
    contains_substring ((k.metric.getD "").toLower) "issue")
  let issue_count : ℤ := match issues_kpi with
    | some k => k.value.getD 0
    | none => 0
  let spi : ℚ := if milestones.any (fun m => decide (m.status = some "at-risk"))
    then 0.95 else 1.02
  let cpi : ℚ := 0.98
  let sev1_defects : ℤ := max 0 (Int.fdiv issue_count 10)
  let sev2_defects : ℤ := max 0 (Int.fdiv issue_count 5 - sev1_defects)
  { spi := spi,
    cpi := cpi,
    quality_score := if issue_count < 100 then 1.0 - (issue_count : ℚ) / 100 else 0.0,
    risk_score := risk_score,
    defect_count := issue_count,
    sev1_defects := sev1_defects,
    sev2_defects := sev2_defects,
    milestone_completion_rate := milestone_rate,
    scope_change_percentage := 0.0,
    resource_utilization := 1.0,
    stakeholder_satisfaction := 0.85 }

/-- The `ProjectStatus` result dataclass (evaluation timestamp modelled as the
`now` argument; `comparison_period` is `none` for the source's empty dict). -/
structure ProjectStatus where
  project_id : String
  project_name : String
  overall_status : StatusColor
  trend : TrendDirection
  health_metrics : HealthMetrics
  highlights : List NoteRecord
  lowlights : List NoteRecord
  confidence_score : ℚ
  evaluation_date : ℤ
  comparison_period : Option Comparison
deriving DecidableEq

/-- Embeds `max(set(trend_values), key=trend_values.count)` over the three trend
values.  Whenever one direction occurs at least twice the result is uniquely
determined; the only tie is three pairwise-distinct values, where CPython's
set-iteration order is unspecified — that case is modelled as `up`. -/
def majority_trend (trends : Trends) : TrendDirection :=
  let trend_values := [trends.schedule, trends.cost, trends.quality]
  if 2 ≤ trend_values.count TrendDirection.up then TrendDirection.up
  else if 2 ≤ trend_values.count TrendDirection.down then TrendDirection.down
  else if 2 ≤ trend_values.count TrendDirection.flat then TrendDirection.flat
  else TrendDirection.up

/-- Embeds `ProjectStatusEngine.evaluate_project`: extraction → RAG evaluation →
detection → optional comparison.  Python's `if historical_data:` is falsy
for both `None` and the empty list, so the comparator runs only on
`some (h :: t)`; a comparator parse error propagates (`Except`). -/
def evaluate_project (parse : String → Option ℤ) (now : ℤ)
    (project_data : ProjectData)
    (historical_data : Option (List HistRecord) := none) :
    Except Unit ProjectStatus :=
  let metrics := extract_metrics project_data
  let overall := calculate_overall_status metrics
  let highlights := detect_highlights metrics none ()
  let lowlights := detect_lowlights metrics none ()
  match historical_data with
  | some (h :: t) =>
    match calculate_7day_comparison parse now () (h :: t) with
    | Except.error e => Except.error e
    | Except.ok comparison =>
      Except.ok
        { project_id := project_data.id.getD "unknown",
          project_name := project_data.name.getD "Unknown Project",
          overall_status := overall.1,
          trend := majority_trend comparison.trends,
          health_metrics := metrics,
          highlights := highlights,
          lowlights := lowlights,
          confidence_score := overall.2,
          evaluation_date := now,
          comparison_period := some comparison }
  | _ =>
    Except.ok
      { project_id := project_data.id.getD "unknown",
        project_name := project_data.name.getD "Unknown Project",
        overall_status := overall.1,
        trend := TrendDirection.flat,
        health_metrics := metrics,
        highlights := highlights,
        lowlights := lowlights,
        confidence_score := overall.2,
        evaluation_date := now,
        comparison_period := none }

/-! ## Helper lemmas -/

/-- Every status color has severity at most 2. -/
lemma severity_map_le_two (s : StatusColor) : severity_map s ≤ 2 := by
  cases s <;> simp [severity_map]

/-- Lemma: `status_map` is a left inverse of `severity_map` on `{0, 1, 2}`. -/
lemma severity_map_status_map (n : ℕ) (hn : n ≤ 2) :
    severity_map (status_map n) = n := by
  interval_cases n <;> simp [status_map, severity_map]

/-- The overall status is the `status_map` image of the left-associated
maximum of the four dimension severities. -/
lemma calculate_overall_status_fst (m : HealthMetrics) :
    (calculate_overall_status m).1 =
      status_map (Nat.max (Nat.max (Nat.max
        (severity_map (evaluate_schedule_health m))
        (severity_map (evaluate_cost_health m)))
        (severity_map (evaluate_quality_health m)))
        (severity_map (evaluate_risk_health m))) := by
  simp [calculate_overall_status, List.foldl, Nat.zero_max]

/-! ## Claim C1 -/

/-- C1: claim confirmed. For every `HealthMetrics` snapshot, the overall status returned by
`calculate_overall_status` has severity (green = 0, amber = 1, red = 2) equal
to the maximum of the severities of the four per-dimension statuses
(schedule, cost, quality, risk); in particular it is never better than any
single dimension, and one red dimension forces overall red regardless of
the other three. -/
theorem overall_status_is_worst_of_dimensions (m : HealthMetrics) :
    severity_map (calculate_overall_status m).1 =
      Nat.max (Nat.max (severity_map (evaluate_schedule_health m))
                       (severity_map (evaluate_cost_health m)))
              (Nat.max (severity_map (evaluate_quality_health m))
                       (severity_map (evaluate_risk_health m)))
    ∧ severity_map (evaluate_schedule_health m) ≤ severity_map (calculate_overall_status m).1
    ∧ severity_map (evaluate_cost_health m) ≤ severity_map (calculate_overall_status m).1
    ∧ severity_map (evaluate_quality_health m) ≤ severity_map (calculate_overall_status m).1
    ∧ severity_map (evaluate_risk_health m) ≤ severity_map (calculate_overall_status m).1
    ∧ ((evaluate_schedule_health m = StatusColor.red ∨
        evaluate_cost_health m = StatusColor.red ∨
        evaluate_quality_health m = StatusColor.red ∨
        evaluate_risk_health m = StatusColor.red) →
       (calculate_overall_status m).1 = StatusColor.red) := by
  have ha := severity_map_le_two (evaluate_schedule_health m)
  have hb := severity_map_le_two (evaluate_cost_health m)
  have hc := severity_map_le_two (evaluate_quality_health m)
  have hd := severity_map_le_two (evaluate_risk_health m)
  rw [calculate_overall_status_fst m]
  rw [severity_map_status_map _ (by simp only [Nat.max_def]; split_ifs <;> omega)]
  refine ⟨by simp only [Nat.max_def]; split_ifs <;> omega,
          by simp only [Nat.max_def]; split_ifs <;> omega,
          by simp only [Nat.max_def]; split_ifs <;> omega,
          by simp only [Nat.max_def]; split_ifs <;> omega,
          by simp only [Nat.max_def]; split_ifs <;> omega, ?_⟩
  intro hred
  have h2 : Nat.max (Nat.max (Nat.max
      (severity_map (evaluate_schedule_health m))
      (severity_map (evaluate_cost_health m)))
      (severity_map (evaluate_quality_health m)))
      (severity_map (evaluate_risk_health m)) = 2 := by
    rcases hred with h | h | h | h <;> rw [h] at * <;>
      simp only [severity_map] at * <;>
      simp only [Nat.max_def] <;> split_ifs <;> omega
  rw [h2]
  simp [status_map]

/-- Concrete instance of C1's red-forcing implication: a snapshot that is red
only on the schedule dimension is overall red. -/
theorem overall_status_is_worst_of_dimensions_witness :
    (calculate_overall_status { spi := 0.5 }).1 = StatusColor.red :=
  (overall_status_is_worst_of_dimensions { spi := 0.5 }).2.2.2.2.2
    (Or.inl (by with_unfolding_all decide))

/-! ## Claim C2 -/

/-- C2: claim confirmed. For every `HealthMetrics` snapshot, each per-dimension classifier
is the stated threshold ladder evaluated green then amber then red with red as
catch-all: schedule is green iff `spi ≥ 0.98`, amber iff `0.90 ≤ spi < 0.98`,
else red; cost the same ladder on `cpi`; quality is green iff `sev1 ≤ 0` and
`sev2 ≤ 0`, amber iff `sev1 ≤ 0` and `sev2 ≤ 3` and not green, else red; risk
is green iff `risk_score ≤ 0.3`, amber iff `0.3 < risk_score ≤ 0.6`, else
red. -/
theorem dimension_classifiers_are_threshold_ladders (m : HealthMetrics) :
    (evaluate_schedule_health m = StatusColor.green ↔ m.spi ≥ 0.98)
    ∧ (evaluate_schedule_health m = StatusColor.amber ↔ 0.90 ≤ m.spi ∧ m.spi < 0.98)
    ∧ (evaluate_schedule_health m = StatusColor.red ↔ m.spi < 0.90)
    ∧ (evaluate_cost_health m = StatusColor.green ↔ m.cpi ≥ 0.98)
    ∧ (evaluate_cost_health m = StatusColor.amber ↔ 0.90 ≤ m.cpi ∧ m.cpi < 0.98)
    ∧ (evaluate_cost_health m = StatusColor.red ↔ m.cpi < 0.90)
    ∧ (evaluate_quality_health m = StatusColor.green ↔
        m.sev1_defects ≤ 0 ∧ m.sev2_defects ≤ 0)
    ∧ (evaluate_quality_health m = StatusColor.amber ↔
        (m.sev1_defects ≤ 0 ∧ m.sev2_defects ≤ 3) ∧
          ¬(m.sev1_defects ≤ 0 ∧ m.sev2_defects ≤ 0))
    ∧ (evaluate_quality_health m = StatusColor.red ↔
        ¬(m.sev1_defects ≤ 0 ∧ m.sev2_defects ≤ 3))
    ∧ (evaluate_risk_health m = StatusColor.green ↔ m.risk_score ≤ 0.3)
    ∧ (evaluate_risk_health m = StatusColor.amber ↔
        0.3 < m.risk_score ∧ m.risk_score ≤ 0.6)
    ∧ (evaluate_risk_health m = StatusColor.red ↔ 0.6 < m.risk_score) := by
  refine ⟨?_, ?_, ?_, ?_, ?_, ?_, ?_, ?_, ?_, ?_, ?_, ?_⟩ <;>
    (first
      | unfold evaluate_schedule_health
      | unfold evaluate_cost_health
      | unfold evaluate_quality_health
      | unfold evaluate_risk_health) <;>
    split_ifs with h1 h2 <;> simp_all <;> linarith

/-! ## Claims C3 and C4 -/

/-- The highlight rule set exactly as the specification words it: four
independent rules (`spi ≥ 1.05`, `cpi ≥ 1.05`, `sev1 == 0 and sev2 == 0`,
`milestone_completion_rate > 0.95`), matching records appended in that fixed
order.  Stated independently of `detect_highlights` so that the two can be
compared. -/
def spec_highlight_rules (m : HealthMetrics) : List NoteRecord :=
  (if m.spi ≥ 1.05 then
    [{ category := "schedule", title := "Schedule Performance Exceeds Target",
       impact := "positive" }] else [])
  ++ (if m.cpi ≥ 1.05 then
    [{ category := "cost", title := "Cost Performance Under Budget",
       impact := "positive" }] else [])
  ++ (if m.sev1_defects = 0 ∧ m.sev2_defects = 0 then
    [{ category := "quality", title := "Zero Critical Defects",
       impact := "positive" }] else [])
  ++ (if m.milestone_completion_rate > 0.95 then
    [{ category := "delivery", title := "Strong Milestone Achievement",
       impact := "positive" }] else [])

/-- The lowlight rule set exactly as the specification words it: four
independent rules (`spi ≤ 0.95`, `cpi ≤ 0.95`, `sev1 ≥ 1`,
`risk_score > 0.6`), matching records appended in that fixed order, each
carrying its remediation-action string. -/
def spec_lowlight_rules (m : HealthMetrics) : List NoteRecord :=
  (if m.spi ≤ 0.95 then
    [{ category := "schedule", title := "Schedule Slippage Detected",
       impact := "negative",
       action_required := some "Schedule recovery plan needed" }] else [])
  ++ (if m.cpi ≤ 0.95 then
    [{ category := "cost", title := "Cost Overrun Risk",
       impact := "negative",
       action_required := some "Cost mitigation strategy required" }] else [])
  ++ (if m.sev1_defects ≥ 1 then
    [{ category := "quality", title := "Critical Defects Present",
       impact := "negative",
       action_required := some "Immediate defect resolution required" }] else [])
  ++ (if m.risk_score > 0.6 then
    [{ category := "risk", title := "High Risk Exposure",
       impact := "negative",
       action_required := some "Risk mitigation plan needed" }] else [])

/-- C3: claim confirmed. For every `HealthMetrics` snapshot, `detect_highlights` evaluates
its four rules independently (`spi ≥ 1.05`; `cpi ≥ 1.05`;
`sev1 == 0 and sev2 == 0`; `milestone_completion_rate > 0.95`) and appends
matching records in exactly that fixed order; in particular, the snapshot with
`spi = 1.10`, `cpi = 1.10`, `sev1 = 0`, `sev2 = 0`,
`milestone_completion_rate = 0.98` and all other fields at their defaults
yields exactly 4 highlights (one per rule) and 0 lowlights. -/
theorem detect_highlights_matches_spec_rules :
    (∀ (m : HealthMetrics) (prev : Option HealthMetrics) (u : Unit),
      detect_highlights m prev u = spec_highlight_rules m)
    ∧ detect_highlights
        { spi := 1.10, cpi := 1.10, sev1_defects := 0, sev2_defects := 0,
          milestone_completion_rate := 0.98 } none () =
      [{ category := "schedule", title := "Schedule Performance Exceeds Target",
         impact := "positive" },
       { category := "cost", title := "Cost Performance Under Budget",
         impact := "positive" },
       { category := "quality", title := "Zero Critical Defects",
         impact := "positive" },
       { category := "delivery", title := "Strong Milestone Achievement",
         impact := "positive" }]
    ∧ detect_lowlights
        { spi := 1.10, cpi := 1.10, sev1_defects := 0, sev2_defects := 0,
          milestone_completion_rate := 0.98 } none () = [] := by
  refine ⟨?_, by with_unfolding_all decide, by with_unfolding_all decide⟩
  intro m prev u
  unfold detect_highlights spec_highlight_rules
  split_ifs <;> simp

/-- C4: claim confirmed. For every `HealthMetrics` snapshot, `detect_lowlights` evaluates
its four rules independently (`spi ≤ 0.95`; `cpi ≤ 0.95`; `sev1 ≥ 1`;
`risk_score > 0.6`) and appends matching records, each carrying a required
remediation-action string, in exactly that fixed order; in particular, the
snapshot with `spi = 0.80`, `cpi = 0.80`, `sev1 = 2`, `risk_score = 0.9`
(other fields at their defaults) yields overall status red and at least 4
lowlights (schedule, cost, quality, risk all breach). -/
theorem detect_lowlights_matches_spec_rules :
    (∀ (m : HealthMetrics) (prev : Option HealthMetrics) (u : Unit),
      detect_lowlights m prev u = spec_lowlight_rules m)
    ∧ (∀ (m : HealthMetrics) (prev : Option HealthMetrics) (u : Unit)
         (r : NoteRecord), r ∈ detect_lowlights m prev u →
           ∃ s, r.action_required = some s)
    ∧ (calculate_overall_status
        { spi := 0.80, cpi := 0.80, sev1_defects := 2, risk_score := 0.9 }).1 =
      StatusColor.red
    ∧ 4 ≤ (detect_lowlights
        { spi := 0.80, cpi := 0.80, sev1_defects := 2, risk_score := 0.9 }
        none ()).length := by
  refine ⟨?_, ?_, by with_unfolding_all decide, by with_unfolding_all decide⟩
  · intro m prev u
    unfold detect_lowlights spec_lowlight_rules
    split_ifs <;> simp
  · intro m prev u r hr
    unfold detect_lowlights at hr
    split_ifs at hr <;> simp_all <;>
      (rcases hr with rfl | rfl | rfl | rfl) <;> exact ⟨_, rfl⟩

/-- Concrete instance of C4's remediation-action guarantee: the schedule
lowlight of the red snapshot carries an action string. -/
theorem detect_lowlights_matches_spec_rules_witness :
    ∃ s, ({ category := "schedule", title := "Schedule Slippage Detected",
            impact := "negative",
            action_required := some "Schedule recovery plan needed" } :
          NoteRecord).action_required = some s :=
  detect_lowlights_matches_spec_rules.2.1
    { spi := 0.80, cpi := 0.80, sev1_defects := 2, risk_score := 0.9 } none ()
    _ (by with_unfolding_all decide)

/-! ## Claim C5 -/

/-- The confidence formula exactly as the specification words it: the number
of true flags among
`{spi ≠ 1.0, cpi ≠ 1.0, quality_score ≠ 1.0, risk_score ≠ 0.0, milestone_completion_rate ≠ 1.0}`. -/
def spec_confidence_count (m : HealthMetrics) : ℕ :=
  (if m.spi ≠ 1 then 1 else 0) + (if m.cpi ≠ 1 then 1 else 0)
    + (if m.quality_score ≠ 1 then 1 else 0) + (if m.risk_score ≠ 0 then 1 else 0)
    + (if m.milestone_completion_rate ≠ 1 then 1 else 0)

/-- The code's confidence equals the spec's deviation count divided by 5. -/
lemma confidence_eq_spec_count (m : HealthMetrics) :
    (calculate_overall_status m).2 = (spec_confidence_count m : ℚ) / 5 := by
  unfold calculate_overall_status spec_confidence_count
  by_cases h1 : m.spi ≠ 1 <;> by_cases h2 : m.cpi ≠ 1 <;>
    by_cases h3 : m.quality_score ≠ 1 <;> by_cases h4 : m.risk_score ≠ 0 <;>
    by_cases h5 : m.milestone_completion_rate ≠ 1 <;>
    simp [h1, h2, h3, h4, h5, List.count_cons, List.count_nil]

/-- An if-then-else over `{0, 1}` is monotone in its condition. -/
lemma ite_one_zero_mono {p q : Prop} [Decidable p] [Decidable q] (h : p → q) :
    (if p then (1 : ℕ) else 0) ≤ if q then 1 else 0 := by
  split_ifs with hp hq
  · exact le_refl 1
  · exact absurd (h hp) hq
  · exact Nat.zero_le 1
  · exact Nat.zero_le 0

/-- The deviation count never exceeds 5. -/
lemma spec_confidence_count_le_five (m : HealthMetrics) :
    spec_confidence_count m ≤ 5 := by
  unfold spec_confidence_count
  split_ifs <;> norm_num

/-- C5: claim confirmed. For every `HealthMetrics` snapshot, the confidence score returned
by `calculate_overall_status` equals the number of true flags among
`{spi ≠ 1.0, cpi ≠ 1.0, quality_score ≠ 1.0, risk_score ≠ 0.0, milestone_completion_rate ≠ 1.0}`
divided by 5; consequently it always lies in `[0, 1]` and is monotonically
non-decreasing as more of these five metrics deviate from their defaults
(adding a deviation never lowers it). -/
theorem confidence_is_deviation_count_over_five (m m' : HealthMetrics)
    (h1 : m.spi ≠ 1 → m'.spi ≠ 1)
    (h2 : m.cpi ≠ 1 → m'.cpi ≠ 1)
    (h3 : m.quality_score ≠ 1 → m'.quality_score ≠ 1)
    (h4 : m.risk_score ≠ 0 → m'.risk_score ≠ 0)
    (h5 : m.milestone_completion_rate ≠ 1 → m'.milestone_completion_rate ≠ 1) :
    (calculate_overall_status m).2 = (spec_confidence_count m : ℚ) / 5
    ∧ 0 ≤ (calculate_overall_status m).2
    ∧ (calculate_overall_status m).2 ≤ 1
    ∧ (calculate_overall_status m).2 ≤ (calculate_overall_status m').2 := by
  have hm := confidence_eq_spec_count m
  have hm' := confidence_eq_spec_count m'
  have hcount : spec_confidence_count m ≤ spec_confidence_count m' := by
    unfold spec_confidence_count
    exact add_le_add (add_le_add (add_le_add (add_le_add
      (ite_one_zero_mono h1) (ite_one_zero_mono h2)) (ite_one_zero_mono h3))
      (ite_one_zero_mono h4)) (ite_one_zero_mono h5)
  refine ⟨hm, ?_, ?_, ?_⟩
  · rw [hm]
    positivity
  · rw [hm]
    rw [div_le_one (by norm_num : (0:ℚ) < 5)]
    exact_mod_cast spec_confidence_count_le_five m
  · rw [hm, hm']
    have h5pos : (0:ℚ) < 5 := by norm_num
    rw [div_le_div_iff_of_pos_right h5pos]
    exact_mod_cast hcount

/-- Concrete instance of C5: deviating in `spi` only gives confidence no
larger than deviating in `spi` and `cpi`. -/
theorem confidence_is_deviation_count_over_five_witness :
    (calculate_overall_status { spi := 2 }).2 ≤
      (calculate_overall_status { spi := 2, cpi := 2 }).2 :=
  (confidence_is_deviation_count_over_five { spi := 2 } { spi := 2, cpi := 2 }
    (by decide) (by decide) (by decide) (by decide) (by decide)).2.2.2

/-! ## Claim C6 -/

/-- A record whose date parses into the window survives a successful filter
pass. -/
lemma filter_period_data_mem (parse : String → Option ℤ) (start stop : ℤ)
    (r : HistRecord) (s : String) (d : ℤ)
    (hdate : r.date = some s) (hparse : parse s = some d)
    (hd1 : start ≤ d) (hd2 : d ≤ stop) :
    ∀ (data res : List HistRecord),
      r ∈ data → filter_period_data parse data start stop = Except.ok res →
      r ∈ res := by
  intro data
  induction data with
  | nil =>
    intro res hr _
    exact absurd hr (List.not_mem_nil r)
  | cons item rest ih =>
    intro res hr hres
    unfold filter_period_data at hres
    rcases List.mem_cons.mp hr with heq | hmem
    · subst heq
      simp only [hdate, hparse] at hres
      rw [if_pos ⟨hd1, hd2⟩] at hres
      cases hfil : filter_period_data parse rest start stop with
      | error e =>
        rw [hfil] at hres
        simp [Except.map] at hres
      | ok l =>
        rw [hfil] at hres
        simp [Except.map] at hres
        rw [← hres]
        exact List.mem_cons_self r l
    · cases hid : item.date with
      | none =>
        simp only [hid] at hres
        exact ih res hmem hres
      | some s' =>
        simp only [hid] at hres
        cases hp : parse s' with
        | none =>
          simp only [hp] at hres
          exact absurd hres (by simp)
        | some d' =>
          simp only [hp] at hres
          by_cases hin : start ≤ d' ∧ d' ≤ stop
          · rw [if_pos hin] at hres
            cases hfil : filter_period_data parse rest start stop with
            | error e =>
              rw [hfil] at hres
              simp [Except.map] at hres
            | ok l =>
              rw [hfil] at hres
              simp [Except.map] at hres
              rw [← hres]
              exact List.mem_cons_of_mem item (ih l hmem hfil)
          · rw [if_neg hin] at hres
            exact ih res hmem hres

/-- C6: claim confirmed. In `calculate_7day_comparison`, both windows are inclusive on both
ends — recent = `[now − 7d, now]`, previous = `[now − 14d, now − 7d]` — so for
every historical record whose date is exactly `now − 7d`, that record is
included in BOTH the recent-window and previous-window record lists feeding
the aggregates (overlapping windows, not an exclusive partition). -/
theorem boundary_record_in_both_windows (parse : String → Option ℤ) (now : ℤ)
    (data : List HistRecord) (r : HistRecord) (s : String)
    (hmem : r ∈ data) (hdate : r.date = some s)
    (hparse : parse s = some (now - 7)) (rec prev : List HistRecord)
    (hrec : filter_period_data parse data (now - 7) now = Except.ok rec)
    (hprev : filter_period_data parse data (now - 14) (now - 7) = Except.ok prev) :
    r ∈ rec ∧ r ∈ prev ∧
    calculate_7day_comparison parse now () data = Except.ok
      { current_period :=
          { start := now - 7, stop := now, metrics := aggregate_metrics rec },
        previous_period :=
          { start := now - 14, stop := now - 7, metrics := aggregate_metrics prev },
        trends := calculate_trends rec prev } := by
  refine ⟨filter_period_data_mem parse (now - 7) now r s (now - 7) hdate hparse
            (le_refl _) (by omega) data rec hmem hrec,
          filter_period_data_mem parse (now - 14) (now - 7) r s (now - 7) hdate hparse
            (by omega) (le_refl _) data prev hmem hprev, ?_⟩
  simp only [calculate_7day_comparison, hrec, hprev]

/-- Concrete instance of C6: with `now = 14`, a record whose date parses to 7
lands in both the `[7, 14]` and the `[0, 7]` window. -/
theorem boundary_record_in_both_windows_witness :
    ({ date := some "d" } : HistRecord) ∈ ([{ date := some "d" }] : List HistRecord) ∧
    ({ date := some "d" } : HistRecord) ∈ ([{ date := some "d" }] : List HistRecord) ∧
    calculate_7day_comparison (fun _ => some 7) 14 () [{ date := some "d" }] =
      Except.ok
        { current_period :=
            { start := 7, stop := 14,
              metrics := aggregate_metrics [{ date := some "d" }] },
          previous_period :=
            { start := 0, stop := 7,
              metrics := aggregate_metrics [{ date := some "d" }] },
          trends := calculate_trends [{ date := some "d" }] [{ date := some "d" }] } :=
  boundary_record_in_both_windows (fun _ => some 7) 14 [{ date := some "d" }]
    { date := some "d" } "d" (by decide) rfl rfl
    [{ date := some "d" }] [{ date := some "d" }]
    (by with_unfolding_all decide) (by with_unfolding_all decide)

/-! ## Claim C7 -/

/-- C7 counterexample. With empty historical data, `evaluate_project`
never reaches the comparator (`if historical_data:` is falsy for `[]`): the
comparison it reports is the empty payload, not a payload whose window
aggregates are the neutral defaults. -/
theorem empty_history_reports_empty_comparison :
    (evaluate_project (fun s => s.toInt?) 0 {} (some [])).map
      (fun ps => ps.comparison_period) = Except.ok none := by
  rfl

/-- C7 as amended. When the historical data is empty, `evaluate_project`
skips the comparator entirely and reports an empty comparison payload with
overall trend flat (likewise when no history is supplied); the comparator
itself, applied to an empty record list — hence two empty windows — yields
each window's aggregates equal to the neutral defaults
`{avg_spi: 1.0, avg_cpi: 1.0, total_issues: 0, completion_rate: 0.0}` and all
three per-dimension trends (schedule, cost, quality) equal to flat. -/
theorem empty_history_comparator_defaults (parse : String → Option ℤ) (now : ℤ) :
    (∀ (pd : ProjectData),
      (evaluate_project parse now pd (some [])).map
          (fun ps => ps.comparison_period) = Except.ok none
      ∧ (evaluate_project parse now pd (some [])).map
          (fun ps => ps.trend) = Except.ok TrendDirection.flat
      ∧ (evaluate_project parse now pd none).map
          (fun ps => ps.comparison_period) = Except.ok none)
    ∧ calculate_7day_comparison parse now () [] = Except.ok
        { current_period :=
            { start := now - 7, stop := now,
              metrics := { avg_spi := 1.0, avg_cpi := 1.0,
                           total_issues := 0, completion_rate := 0.0 } },
          previous_period :=
            { start := now - 14, stop := now - 7,
              metrics := { avg_spi := 1.0, avg_cpi := 1.0,
                           total_issues := 0, completion_rate := 0.0 } },
          trends := { schedule := TrendDirection.flat, cost := TrendDirection.flat,
                      quality := TrendDirection.flat } } := by
  refine ⟨fun pd => ⟨rfl, rfl, rfl⟩, ?_⟩
  have hflat : calculate_trends [] [] =
      { schedule := TrendDirection.flat, cost := TrendDirection.flat,
        quality := TrendDirection.flat } := by
    unfold calculate_trends aggregate_metrics
    norm_num
  simp [calculate_7day_comparison, filter_period_data, hflat, aggregate_metrics]

/-! ## Claim C9 -/

/-- A window filter pass fails as soon as the data contains a record whose
date string does not parse. -/
lemma filter_period_data_error (parse : String → Option ℤ) (start stop : ℤ) :
    ∀ (data : List HistRecord),
      (∃ r ∈ data, ∃ s, r.date = some s ∧ parse s = none) →
      filter_period_data parse data start stop = Except.error () := by
  intro data
  induction data with
  | nil =>
    rintro ⟨r, hr, -⟩
    exact absurd hr (List.not_mem_nil r)
  | cons item rest ih =>
    rintro ⟨r, hr, s, hdate, hparse⟩
    unfold filter_period_data
    rcases List.mem_cons.mp hr with rfl | hmem
    · simp [hdate, hparse]
    · have herr := ih ⟨r, hmem, s, hdate, hparse⟩
      cases hid : item.date with
      | none =>
        simpa using herr
      | some s' =>
        cases hp : parse s' with
        | none => simp [hp]
        | some d' =>
          simp only [hp]
          by_cases hin : start ≤ d' ∧ d' ≤ stop
          · rw [if_pos hin, herr]
            rfl
          · rw [if_neg hin]
            exact herr

/-- C9: claim confirmed. For every historical-record list containing a record that has a
`date` key whose value is not a parseable date string,
`calculate_7day_comparison` fails with a parse error that propagates to the
caller (it is not caught internally); records lacking a `date` key are
silently excluded rather than causing an error. -/
theorem malformed_date_errors_propagate_and_dateless_skipped
    (parse : String → Option ℤ) (now : ℤ) (data : List HistRecord) :
    ((∃ r ∈ data, ∃ s, r.date = some s ∧ parse s = none) →
      calculate_7day_comparison parse now () data = Except.error ())
    ∧ ∀ (item : HistRecord) (rest : List HistRecord) (start stop : ℤ),
        item.date = none →
        filter_period_data parse (item :: rest) start stop =
          filter_period_data parse rest start stop := by
  constructor
  · intro hbad
    have herr := filter_period_data_error parse (now - 7) now data hbad
    simp [calculate_7day_comparison, herr]
  · intro item rest start stop hnone
    conv_lhs => unfold filter_period_data
    simp [hnone]

/-- Concrete instance of C9: a single unparseable record makes the comparison
fail, and a single dateless record is skipped without error. -/
theorem malformed_date_errors_propagate_witness :
    calculate_7day_comparison (fun _ => none) 0 () [{ date := some "x" }] =
      Except.error ()
    ∧ filter_period_data (fun _ => none) [({} : HistRecord)] 1 2 =
        filter_period_data (fun _ => none) [] 1 2 :=
  ⟨(malformed_date_errors_propagate_and_dateless_skipped (fun _ => none) 0
      [{ date := some "x" }]).1 ⟨{ date := some "x" }, by decide, "x", rfl, rfl⟩,
   (malformed_date_errors_propagate_and_dateless_skipped (fun _ => none) 0 []).2
      {} [] 1 2 rfl⟩

/-! ## Claim C8 -/

/-- C8 counterexample. The claim's formula `sev1 = issue_count // 10` is
wrong for a negative extracted issue count: with the issue KPI value `-10`
the code clamps `sev1_defects` to `0` (`max(0, issue_count // 10)`), while the
claimed formula gives `-10 // 10 = -1`. -/
theorem extract_metrics_sev1_formula_counterexample :
    (extract_metrics
      { kpis := [{ metric := some "issues", value := some (-10) }] }).defect_count = -10
    ∧ (extract_metrics
        { kpis := [{ metric := some "issues", value := some (-10) }] }).sev1_defects ≠
      Int.fdiv (-10) 10
    ∧ Int.fdiv (-10) 10 = -1 := by
  with_unfolding_all decide

/-- C8 as amended. For every `project_data` mapping, `extract_metrics`
computes exactly: `spi = 1.02` if no milestone has status `"at-risk"` else
`0.95`; `cpi = 0.98`; `risk_score = min(0.3 × number of high-severity risks,
1.0)`; the issue count taken from the first KPI whose lower-cased metric name
contains `"issue"` (0 when none); `sev1 = max(0, issue_count // 10)`;
`sev2 = max(0, issue_count // 5 − sev1)`;
`quality_score = 1.0 − issue_count/100` when `issue_count < 100`, else `0.0`;
and `milestone_completion_rate = completed/len(milestones)`, with an empty
milestone list yielding rate 0 (not the 1.0 neutral baseline). -/
theorem extract_metrics_computes_stated_formulas (pd : ProjectData) :
    (extract_metrics pd).spi =
      (if ∀ m ∈ pd.milestones, m.status ≠ some "at-risk" then 1.02 else 0.95)
    ∧ (extract_metrics pd).cpi = 0.98
    ∧ (extract_metrics pd).risk_score =
        min (0.3 * ((pd.risks.filter
          (fun r => decide (r.severity = some "high"))).length : ℚ)) 1.0
    ∧ (extract_metrics pd).defect_count =
        (match pd.kpis.find? (fun k =>
            contains_substring ((k.metric.getD "").toLower) "issue") with
          | some k => k.value.getD 0
          | none => 0)
    ∧ (extract_metrics pd).sev1_defects =
        max 0 (Int.fdiv (extract_metrics pd).defect_count 10)
    ∧ (extract_metrics pd).sev2_defects =
        max 0 (Int.fdiv (extract_metrics pd).defect_count 5 -
          (extract_metrics pd).sev1_defects)
    ∧ (extract_metrics pd).quality_score =
        (if (extract_metrics pd).defect_count < 100 then
          1.0 - ((extract_metrics pd).defect_count : ℚ) / 100 else 0.0)
    ∧ (extract_metrics pd).milestone_completion_rate =
        (if pd.milestones = [] then 0 else
          ((pd.milestones.filter
            (fun m => decide (m.status = some "completed"))).length : ℚ) /
            (pd.milestones.length : ℚ)) := by
  refine ⟨?_, rfl, ?_, rfl, rfl, rfl, rfl, ?_⟩
  · show (if pd.milestones.any (fun m => decide (m.status = some "at-risk"))
        then (0.95 : ℚ) else 1.02) = _
    by_cases h : ∀ m ∈ pd.milestones, m.status ≠ some "at-risk"
    · rw [if_pos h, if_neg]
      simp only [List.any_eq_true, decide_eq_true_eq]
      rintro ⟨m, hm, hst⟩
      exact h m hm hst
    · rw [if_neg h, if_pos]
      simp only [List.any_eq_true, decide_eq_true_eq]
      push_neg at h
      rcases h with ⟨m, hm, hst⟩
      exact ⟨m, hm, hst⟩
  · show min (((pd.risks.countP (fun r => decide (r.severity = some "high"))) : ℚ) * 0.3) 1.0 = _
    rw [List.countP_eq_length_filter, mul_comm]
  · show (if 0 < (if pd.milestones = [] then 1 else pd.milestones.length) then
        ((pd.milestones.countP (fun m => decide (m.status = some "completed"))) : ℚ) /
          ((if pd.milestones = [] then 1 else pd.milestones.length : ℕ) : ℚ)
      else 0) = _
    by_cases hm : pd.milestones = []
    · simp only [hm]
      norm_num [List.countP_nil]
    · rw [if_neg hm, if_neg hm, if_pos (List.length_pos.mpr hm),
        List.countP_eq_length_filter]

/-! ## Claim C10 -/

/-- Any metrics snapshot whose `cpi` is `0.98` produces no cost highlight:
the `cpi ≥ 1.05` trigger cannot fire. -/
lemma no_cost_highlight_of_cpi (m : HealthMetrics) (hcpi : m.cpi = 0.98)
    (prev : Option HealthMetrics) (u : Unit) :
    ∀ r ∈ detect_highlights m prev u, r.title ≠ "Cost Performance Under Budget" := by
  intro r hr
  have hc : ¬ (m.cpi ≥ 1.05) := by
    rw [hcpi]
    norm_num
  simp only [detect_highlights] at hr
  rw [if_neg hc] at hr
  split_ifs at hr <;> simp_all <;> (rcases hr with rfl | rfl | rfl) <;> decide

/-- Any metrics snapshot whose `cpi` is `0.98` produces no cost lowlight:
the `cpi ≤ 0.95` trigger cannot fire. -/
lemma no_cost_lowlight_of_cpi (m : HealthMetrics) (hcpi : m.cpi = 0.98)
    (prev : Option HealthMetrics) (u : Unit) :
    ∀ r ∈ detect_lowlights m prev u, r.title ≠ "Cost Overrun Risk" := by
  intro r hr
  have hc : ¬ (m.cpi ≤ 0.95) := by
    rw [hcpi]
    norm_num
  simp only [detect_lowlights] at hr
  rw [if_neg hc] at hr
  split_ifs at hr <;> simp_all <;> (rcases hr with rfl | rfl | rfl) <;> decide

/-- C10: claim confirmed. For every `project_data` mapping, the `HealthMetrics` produced by
`extract_metrics` has `cpi = 0.98` exactly; therefore on the
`evaluate_project` path the cost dimension always classifies green, and
neither the "Cost Performance Under Budget" highlight (requires `cpi ≥ 1.05`)
nor the "Cost Overrun Risk" lowlight (requires `cpi ≤ 0.95`) can ever appear
in the result. -/
theorem evaluate_project_cost_always_green (parse : String → Option ℤ)
    (now : ℤ) (pd : ProjectData) (hist : Option (List HistRecord))
    (ps : ProjectStatus)
    (hok : evaluate_project parse now pd hist = Except.ok ps) :
    ps.health_metrics.cpi = 0.98
    ∧ evaluate_cost_health ps.health_metrics = StatusColor.green
    ∧ (∀ r ∈ ps.highlights, r.title ≠ "Cost Performance Under Budget")
    ∧ (∀ r ∈ ps.lowlights, r.title ≠ "Cost Overrun Risk") := by
  have hfields : ps.health_metrics = extract_metrics pd
      ∧ ps.highlights = detect_highlights (extract_metrics pd) none ()
      ∧ ps.lowlights = detect_lowlights (extract_metrics pd) none () := by
    unfold evaluate_project at hok
    rcases hist with _ | hlist
    · dsimp only at hok
      injection hok with h2
      subst h2
      exact ⟨rfl, rfl, rfl⟩
    · rcases hlist with _ | ⟨h, t⟩
      · dsimp only at hok
        injection hok with h2
        subst h2
        exact ⟨rfl, rfl, rfl⟩
      · dsimp only at hok
        rcases hcomp : calculate_7day_comparison parse now () (h :: t) with e | c
        · rw [hcomp] at hok
          exact absurd hok (by simp)
        · rw [hcomp] at hok
          dsimp only at hok
          injection hok with h2
          subst h2
          exact ⟨rfl, rfl, rfl⟩
  rcases hfields with ⟨hm, hh, hl⟩
  have hcpi : (extract_metrics pd).cpi = 0.98 := rfl
  refine ⟨by rw [hm]; exact hcpi, ?_, ?_, ?_⟩
  · rw [hm]
    unfold evaluate_cost_health
    rw [if_pos hcpi.ge]
  · rw [hh]
    exact no_cost_highlight_of_cpi (extract_metrics pd) hcpi none ()
  · rw [hl]
    exact no_cost_lowlight_of_cpi (extract_metrics pd) hcpi none ()

/-- Concrete instance of C10: on the default project data the single emitted
highlight is the zero-defects one, not the cost one. -/
theorem evaluate_project_cost_always_green_witness :
    ({ category := "quality", title := "Zero Critical Defects",
       impact := "positive" } : NoteRecord).title ≠
      "Cost Performance Under Budget" :=
  (evaluate_project_cost_always_green (fun _ => none) 0 {} none
    { project_id := "unknown", project_name := "Unknown Project",
      overall_status := StatusColor.green, trend := TrendDirection.flat,
      health_metrics :=
        { spi := 1.02, cpi := 0.98, quality_score := 1, risk_score := 0,
          defect_count := 0, sev1_defects := 0, sev2_defects := 0,
          milestone_completion_rate := 0, scope_change_percentage := 0,
          resource_utilization := 1, stakeholder_satisfaction := 0.85 },
      highlights := [{ category := "quality", title := "Zero Critical Defects",
                       impact := "positive" }],
      lowlights := [], confidence_score := 3/5, evaluation_date := 0,
      comparison_period := none }
    (by with_unfolding_all decide)).2.2.1 _ (by with_unfolding_all decide)

end ProjectStatusEngine
